import Mathlib

/-!
Verification of the social-media agent workflow core.

Shallow embedding of the repository's workflow code:
- `src/agent/state.py`  : `PostStatus`, `Platform`, `PostContent`, `HumanFeedback`, `AgentState`
- `src/agent/nodes.py`  : `generate_post`, `request_approval`, `_parse_human_response`,
                          `process_feedback`, `publish_post`, `should_regenerate`
- `src/agent/graph.py`  : the node wiring (generate → request_approval → process_feedback
                          → branch on `should_regenerate`)
- `src/web/api.py`      : the `pending_threads` registry and the approve endpoint

External collaborators (the LLM completion call and the platform publish call) are
passed in as explicit parameters, following the spec's determinism requirement that
node executors are pure functions of `(state, external-collaborator responses)`.
The `messages` field of `AgentState` (an append-only conversation log used only for
display) and the `created_at` timestamp of `PostContent` are omitted from the model:
no claim mentions them and they carry wall-clock / chat-history data only.
-/

/-- `PostStatus` from `src/agent/state.py`. -/
inductive PostStatus where
  | draft
  | pending_approval
  | approved
  | rejected
  | published
  | failed
deriving DecidableEq, Repr

/-- `Platform` from `src/agent/state.py`. -/
inductive Platform where
  | twitter
  | linkedin
deriving DecidableEq, Repr

/-- `PostContent` from `src/agent/state.py` (the `created_at` timestamp is omitted). -/
structure PostContent where
  text : String
  platform : Platform
  hashtags : List String
deriving DecidableEq, Repr

/-- `PostContent.formatted_text` from `src/agent/state.py`:
`text + "\n\n" + " ".join("#"+tag)` when `hashtags` is non-empty (Python truthiness),
otherwise just `text`. -/
def PostContent.formatted_text (p : PostContent) : String :=
  if !p.hashtags.isEmpty then
    p.text ++ "\n\n" ++ String.intercalate " " (p.hashtags.map (fun tag => "#" ++ tag))
  else
    p.text

/-- `PostContent.char_count` from `src/agent/state.py`: `len(self.formatted_text)`. -/
def PostContent.char_count (p : PostContent) : Nat :=
  p.formatted_text.length

/-- The three values of the `Literal["approve", "reject", "edit"]` action field of
`HumanFeedback` in `src/agent/state.py`. -/
inductive FeedbackAction where
  | approve
  | reject
  | edit
deriving DecidableEq, Repr

/-- `HumanFeedback` from `src/agent/state.py`. -/
structure HumanFeedback where
  action : FeedbackAction
  edited_text : Option String := none
  feedback_message : Option String := none
deriving DecidableEq, Repr

/-- `AgentState` from `src/agent/state.py` (the `messages` chat log is omitted). -/
structure AgentState where
  topic : String := ""
  platform : Platform := Platform.twitter
  tone : String := "professional"
  additional_context : String := ""
  post_content : Option PostContent := none
  status : PostStatus := PostStatus.draft
  human_feedback : Option HumanFeedback := none
  generation_attempts : Nat := 0
  max_attempts : Nat := 3
  published_url : Option String := none
  error_message : Option String := none
  thread_id : String := ""
deriving DecidableEq, Repr

/-- A partial state update, the `dict` a LangGraph node returns.  An outer `none`
means the key is absent from the dict (field left unchanged); `some v` means the
key is present with value `v` — in particular `some none` on an optional field is
the Python `None` value, which explicitly clears the field. -/
structure StateUpdate where
  post_content : Option (Option PostContent) := none
  status : Option PostStatus := none
  human_feedback : Option (Option HumanFeedback) := none
  generation_attempts : Option Nat := none
  published_url : Option (Option String) := none
  error_message : Option (Option String) := none
deriving DecidableEq, Repr

/-- LangGraph's merge of a returned node dict into the running state:
field-by-field overwrite, absent key means unchanged. -/
def applyUpdate (s : AgentState) (u : StateUpdate) : AgentState :=
  { s with
    post_content := u.post_content.getD s.post_content
    status := u.status.getD s.status
    human_feedback := u.human_feedback.getD s.human_feedback
    generation_attempts := u.generation_attempts.getD s.generation_attempts
    published_url := u.published_url.getD s.published_url
    error_message := u.error_message.getD s.error_message }

/-- Python `str.strip()` with no argument: remove leading and trailing whitespace. -/
def pyStrip (s : String) : String :=
  String.mk (((s.toList.dropWhile Char.isWhitespace).reverse.dropWhile
    Char.isWhitespace).reverse)

/-- Python `str.lower()`, character by character. -/
def pyLower (s : String) : String :=
  String.mk (s.toList.map Char.toLower)

/-- Python `s.startswith(p)`. -/
def pyStartsWith (s p : String) : Bool :=
  p.toList.isPrefixOf s.toList

/-- Python slice `s[n:]`. -/
def pyDrop (s : String) (n : Nat) : String :=
  String.mk (s.toList.drop n)

/-- Accumulator for `pySplitChar`: walk the characters, cutting at the separator. -/
def splitCharAux (c : Char) : List Char → List Char → List String
  | [], acc => [String.mk acc.reverse]
  | x :: xs, acc =>
    if x = c then String.mk acc.reverse :: splitCharAux c xs []
    else splitCharAux c xs (x :: acc)

/-- Python `s.split(sep)` for a one-character separator `sep` (as used with
`split("\n")` in `generate_post`). -/
def pySplitChar (c : Char) (s : String) : List String :=
  splitCharAux c s.toList []

/-- Python `tag.strip().lstrip("#")`: strip whitespace, then drop every leading `#`. -/
def stripTag (tag : String) : String :=
  String.mk ((pyStrip tag).toList.dropWhile (fun c => c = '#'))

/-- The hashtag list-comprehension in `generate_post` (`src/agent/nodes.py`):
`[tag.strip().lstrip("#") for tag in hashtag_response.content.strip().split("\n") if tag.strip()]`. -/
def extract_hashtags (raw : String) : List String :=
  ((pySplitChar '\n' (pyStrip raw)).filter (fun tag => !(pyStrip tag == ""))).map stripTag

/-- `generate_post` from `src/agent/nodes.py`.  The two LLM responses
(`response.content` for the post body, `hashtag_response.content` for the
hashtags) are passed in as the collaborator's outputs. -/
def generate_post (s : AgentState) (responseContent hashtagResponseContent : String) :
    StateUpdate :=
  let post_text := pyStrip responseContent
  let num_hashtags := if s.platform = Platform.twitter then 3 else 5
  let hashtags := extract_hashtags hashtagResponseContent
  let post_content : PostContent :=
    { text := post_text, platform := s.platform, hashtags := hashtags.take num_hashtags }
  { post_content := some (some post_content)
    status := some PostStatus.pending_approval
    generation_attempts := some (s.generation_attempts + 1) }

/-- A resume value: either a raw string or the structured feedback dict
`{action, edited_text, feedback_message}` (pydantic validates `action` to the
three literals, so the dict form carries a `FeedbackAction`). -/
inductive HumanResponse where
  | str (s : String)
  | dict (action : FeedbackAction) (edited_text : Option String)
      (feedback_message : Option String)
deriving DecidableEq, Repr

/-- `_parse_human_response` from `src/agent/nodes.py`.  Note that the string form
is normalized with `.strip().lower()` before any matching, so the text recovered
after `"edit:"` is the lowercased remainder. -/
def parse_human_response (response : HumanResponse) : HumanFeedback :=
  match response with
  | HumanResponse.dict a e m => { action := a, edited_text := e, feedback_message := m }
  | HumanResponse.str s =>
    let response_str := pyLower (pyStrip s)
    if response_str = "approve" then
      { action := FeedbackAction.approve }
    else if response_str = "reject" then
      { action := FeedbackAction.reject }
    else if pyStartsWith response_str "edit:" then
      { action := FeedbackAction.edit, edited_text := some (pyStrip (pyDrop response_str 5)) }
    else
      { action := FeedbackAction.approve
        feedback_message := some ("Unclear response: " ++ s) }

/-- `request_approval` from `src/agent/nodes.py`: with no draft it returns only an
error message; otherwise it suspends at `interrupt(...)`, and on resume parses the
supplied resume value into the `human_feedback` field. -/
def request_approval (s : AgentState) (humanResponse : HumanResponse) : StateUpdate :=
  match s.post_content with
  | none => { error_message := some (some "No post content to approve") }
  | some _ => { human_feedback := some (some (parse_human_response humanResponse)) }

/-- The error message of the exhausted-budget branch of `process_feedback`:
`f"Max generation attempts ({state.max_attempts}) reached"`. -/
def maxAttemptsMsg (m : Nat) : String :=
  "Max generation attempts (" ++ toString m ++ ") reached"

/-- Python truthiness of an `Optional[str]`: `None` and `""` are falsy. -/
def truthyStr : Option String → Bool
  | none => false
  | some s => !(s == "")

/-- `process_feedback` from `src/agent/nodes.py`. -/
def process_feedback (s : AgentState) : StateUpdate :=
  match s.human_feedback with
  | none => { status := some PostStatus.pending_approval }
  | some feedback =>
    match feedback.action with
    | FeedbackAction.approve => { status := some PostStatus.approved }
    | FeedbackAction.reject =>
      if s.generation_attempts ≥ s.max_attempts then
        { status := some PostStatus.failed
          error_message := some (some (maxAttemptsMsg s.max_attempts)) }
      else
        { status := some PostStatus.draft
          human_feedback := some none }
    | FeedbackAction.edit =>
      if s.post_content.isSome && truthyStr feedback.edited_text then
        match s.post_content, feedback.edited_text with
        | some pc, some et =>
          { post_content := some (some
              { text := et, platform := s.platform, hashtags := pc.hashtags })
            status := some PostStatus.approved }
        | _, _ => { status := some PostStatus.approved }
      else
        { status := some PostStatus.approved }

/-- `publish_post` from `src/agent/nodes.py`.  The publish collaborator
(`connector.publish`, called with `state.post_content.formatted_text`) is the
parameter `conn`: it either returns the result dict's optional `url` field or
raises, modelled as `Except` with the exception's message. -/
def publish_post (s : AgentState) (conn : String → Except String (Option String)) :
    StateUpdate :=
  match s.post_content with
  | none =>
    { status := some PostStatus.failed
      error_message := some (some "No post content to publish") }
  | some pc =>
    match conn pc.formatted_text with
    | Except.ok url =>
      { status := some PostStatus.published
        published_url := some url }
    | Except.error e =>
      { status := some PostStatus.failed
        error_message := some (some e) }

/-- `should_regenerate` from `src/agent/nodes.py`. -/
def should_regenerate (s : AgentState) : String :=
  if s.status = PostStatus.approved then "publish"
  else if s.status = PostStatus.draft then "generate"
  else "end"

/-- One execution of any of the four graph nodes, with arbitrary collaborator
responses, merged into the state the way the graph loop does
(`src/agent/graph.py` wiring, §4.2 merge semantics). -/
inductive NodeStep : AgentState → AgentState → Prop where
  | generate (s : AgentState) (pt hr : String) :
      NodeStep s (applyUpdate s (generate_post s pt hr))
  | approval (s : AgentState) (r : HumanResponse) :
      NodeStep s (applyUpdate s (request_approval s r))
  | feedback (s : AgentState) :
      NodeStep s (applyUpdate s (process_feedback s))
  | publish (s : AgentState) (conn : String → Except String (Option String)) :
      NodeStep s (applyUpdate s (publish_post s conn))

/-- The initial `AgentState` built by the generate endpoint in `src/web/api.py`:
all workflow fields at their schema defaults (`status=DRAFT`, `generation_attempts=0`,
`max_attempts=3`). -/
def initial_state (topic : String) (platform : Platform) (tone addCtx threadId : String) :
    AgentState :=
  { topic := topic, platform := platform, tone := tone, additional_context := addCtx,
    thread_id := threadId }

/-- One pass of the regeneration loop under rejecting feedback: run the draft node
(with the round's LLM outputs), the approval node (resumed with the round's human
response), then the feedback node — exactly the `generate → request_approval →
process_feedback` path of `src/agent/graph.py`. -/
def rejectRound (llm : Nat → String × String) (resp : Nat → HumanResponse)
    (s : AgentState) : AgentState :=
  let s1 := applyUpdate s
    (generate_post s (llm s.generation_attempts).1 (llm s.generation_attempts).2)
  let s2 := applyUpdate s1 (request_approval s1 (resp s.generation_attempts))
  applyUpdate s2 (process_feedback s2)

/-- Fuel-bounded run of the whole graph loop under rejecting feedback, counting
executions of the draft node: after each round the conditional edge
`should_regenerate` either loops back to the draft node or ends. -/
def runReject (llm : Nat → String × String) (resp : Nat → HumanResponse) :
    Nat → AgentState → AgentState × Nat
  | 0, s => (s, 0)
  | fuel + 1, s =>
    let s' := rejectRound llm resp s
    if should_regenerate s' = "generate" then
      let r := runReject llm resp fuel s'
      (r.1, r.2 + 1)
    else
      (s', 1)

/-- Resuming a suspended thread (`Command(resume=...)` through the compiled graph):
replay `request_approval` feeding the resume value to the interrupt, take the static
edge to `process_feedback`, then follow the conditional edge — to `publish_post`
(then END), back to `generate_post` (which re-suspends at the next approval
request), or to END. -/
def resume_thread (s : AgentState) (resp : HumanResponse) (llm : String × String)
    (conn : String → Except String (Option String)) : AgentState :=
  let s1 := applyUpdate s (request_approval s resp)
  let s2 := applyUpdate s1 (process_feedback s1)
  if should_regenerate s2 = "publish" then
    applyUpdate s2 (publish_post s2 conn)
  else if should_regenerate s2 = "generate" then
    applyUpdate s2 (generate_post s2 llm.1 llm.2)
  else
    s2

/-- The first run of a new thread (`/posts/generate` in `src/web/api.py`): start
from the initial state and run the draft node; the workflow then suspends inside
`request_approval`, so the stored result is the post-draft state. -/
def start_thread (topic : String) (platform : Platform) (tone addCtx threadId : String)
    (llm : String × String) : AgentState :=
  let s0 := initial_state topic platform tone addCtx threadId
  applyUpdate s0 (generate_post s0 llm.1 llm.2)

/-- Point lookup in the `pending_threads` registry of `src/web/api.py`. -/
def lookupThread (pending : List (String × AgentState)) (tid : String) :
    Option AgentState :=
  match pending with
  | [] => none
  | p :: rest => if p.1 = tid then some p.2 else lookupThread rest tid

/-- `pending_threads.pop(thread_id, None)` in `src/web/api.py`. -/
def removeThread (pending : List (String × AgentState)) (tid : String) :
    List (String × AgentState) :=
  pending.filter (fun p => decide (p.1 ≠ tid))

/-- `pending_threads[thread_id]["result"] = result` in `src/web/api.py`. -/
def setThread (pending : List (String × AgentState)) (tid : String) (st : AgentState) :
    List (String × AgentState) :=
  pending.map (fun p => if p.1 = tid then (tid, st) else p)

/-- The `ApprovalRequest` body of `src/web/api.py` (pydantic validates `action`
against `^(approve|reject|edit)$`). -/
structure ApprovalRequest where
  action : FeedbackAction
  edited_text : Option String := none
  feedback_message : Option String := none
deriving DecidableEq, Repr

/-- The `/posts/{thread_id}/approve` endpoint of `src/web/api.py`: unknown thread
→ the 404 "Thread not found" error with the registry untouched; otherwise resume
the thread's graph with the structured feedback dict, then pop the registry entry
if the result is terminal or store the new result otherwise. -/
def approve_post (pending : List (String × AgentState)) (tid : String)
    (req : ApprovalRequest) (llm : String × String)
    (conn : String → Except String (Option String)) :
    List (String × AgentState) × Except String AgentState :=
  match lookupThread pending tid with
  | none => (pending, Except.error "Thread not found")
  | some stored =>
    let result := resume_thread stored
      (HumanResponse.dict req.action req.edited_text req.feedback_message) llm conn
    if result.status = PostStatus.published ∨ result.status = PostStatus.failed then
      (removeThread pending tid, Except.ok result)
    else
      (setThread pending tid result, Except.ok result)

/-- The `pending_threads` registry contents reachable through the API: initially
empty, grown by `/posts/generate`, rewritten by `/posts/{thread_id}/approve`. -/
inductive ReachablePending : List (String × AgentState) → Prop where
  | nil : ReachablePending []
  | start (pending : List (String × AgentState)) (topic : String) (platform : Platform)
      (tone addCtx tid : String) (llm : String × String) :
      ReachablePending pending →
      ReachablePending ((tid, start_thread topic platform tone addCtx tid llm) :: pending)
  | approve (pending : List (String × AgentState)) (tid : String) (req : ApprovalRequest)
      (llm : String × String) (conn : String → Except String (Option String)) :
      ReachablePending pending →
      ReachablePending (approve_post pending tid req llm conn).1

/-- Modelled from the spec: "`rendered_text` = body + blank line + hashtags each
prefixed with `#`, space-joined", read with no special case for an empty hashtag
sequence (claim C8 asserts this formula "including the case of an empty hashtag
sequence"); to be compared with the code's `PostContent.formatted_text`. -/
def renderedTextSpec (p : PostContent) : String :=
  p.text ++ "\n\n" ++ String.intercalate " " (p.hashtags.map (fun tag => "#" ++ tag))

/-- The per-platform hashtag budget of `generate_post`:
`3 if state.platform == Platform.TWITTER else 5`. -/
def numHashtags (p : Platform) : Nat :=
  if p = Platform.twitter then 3 else 5

/-- The draft invariant of the spec (§3): any present draft targets the state's
platform and respects the per-platform hashtag bound. -/
def DraftInv (s : AgentState) : Prop :=
  ∀ pc, s.post_content = some pc →
    pc.platform = s.platform ∧ pc.hashtags.length ≤ numHashtags pc.platform

/-! ### Basic computation lemmas -/

theorem applyUpdate_platform (s : AgentState) (u : StateUpdate) :
    (applyUpdate s u).platform = s.platform := rfl

theorem applyUpdate_max_attempts (s : AgentState) (u : StateUpdate) :
    (applyUpdate s u).max_attempts = s.max_attempts := rfl

theorem generate_post_applied (s : AgentState) (pt hr : String) :
    applyUpdate s (generate_post s pt hr) =
      { s with
        post_content := some
          { text := pyStrip pt, platform := s.platform,
            hashtags := (extract_hashtags hr).take
              (if s.platform = Platform.twitter then 3 else 5) }
        status := PostStatus.pending_approval
        generation_attempts := s.generation_attempts + 1 } := rfl

theorem request_approval_some (s : AgentState) (r : HumanResponse) (pc : PostContent)
    (h : s.post_content = some pc) :
    request_approval s r = { human_feedback := some (some (parse_human_response r)) } := by
  simp [request_approval, h]

theorem process_feedback_reject (s : AgentState) (fb : HumanFeedback)
    (h : s.human_feedback = some fb) (ha : fb.action = FeedbackAction.reject) :
    process_feedback s =
      if s.max_attempts ≤ s.generation_attempts then
        { status := some PostStatus.failed
          error_message := some (some (maxAttemptsMsg s.max_attempts)) }
      else
        { status := some PostStatus.draft, human_feedback := some none } := by
  simp [process_feedback, h, ha, ge_iff_le]

/-! ### C8: rendered text and length -/

/-- C8 (counterexample): the claim asserts `rendered_text = body + blank line +
space-joined '#'-prefixed hashtags` "including the case of an empty hashtag
sequence", but `PostContent.formatted_text` returns the bare body when `hashtags`
is empty: on the draft `⟨"hi", twitter, []⟩` the code yields `"hi"` while the
claimed formula yields `"hi\n\n"`. -/
theorem rendered_text_empty_counterexample :
    PostContent.formatted_text { text := "hi", platform := Platform.twitter, hashtags := [] } = "hi" ∧
    renderedTextSpec { text := "hi", platform := Platform.twitter, hashtags := [] } = "hi\n\n" ∧
    PostContent.formatted_text { text := "hi", platform := Platform.twitter, hashtags := [] } ≠
      renderedTextSpec { text := "hi", platform := Platform.twitter, hashtags := [] } := by
  refine ⟨rfl, rfl, ?_⟩
  decide

/-- C8 (amended): for every draft, `rendered_text` equals the body followed by a
blank line and the '#'-prefixed, space-joined hashtags when the hashtag sequence
is non-empty, and equals the bare body when the hashtag sequence is empty; in both
cases the derived `length` equals the character count of `rendered_text`. -/
theorem rendered_text_spec_amended (p : PostContent) :
    p.formatted_text = (if p.hashtags = [] then p.text else renderedTextSpec p) ∧
    p.char_count = p.formatted_text.length := by
  refine ⟨?_, rfl⟩
  rcases p with ⟨t, pl, hs⟩
  cases hs <;> simp [PostContent.formatted_text, renderedTextSpec]

/-! ### C10: feedback node with absent feedback -/

/-- C10: when `human_feedback` is absent, `process_feedback` returns the update
`{status: PENDING_APPROVAL}` and nothing else, so the merged state differs from
the input state only by `status = PENDING_APPROVAL`; `should_regenerate` then
routes that state to the end marker, terminating the run in the non-terminal
status `PENDING_APPROVAL`. -/
theorem process_feedback_none_ends_pending (s : AgentState)
    (h : s.human_feedback = none) :
    process_feedback s = { status := some PostStatus.pending_approval } ∧
    applyUpdate s (process_feedback s) = { s with status := PostStatus.pending_approval } ∧
    should_regenerate (applyUpdate s (process_feedback s)) = "end" := by
  have h1 : process_feedback s = { status := some PostStatus.pending_approval } := by
    simp [process_feedback, h]
  refine ⟨h1, ?_, ?_⟩
  · rw [h1]; rfl
  · rw [h1]; simp [should_regenerate, applyUpdate]

/-- Witness for C10 at the default initial state. -/
theorem process_feedback_none_ends_pending_witness :
    process_feedback {} = { status := some PostStatus.pending_approval } ∧
    applyUpdate {} (process_feedback {}) =
      { ({} : AgentState) with status := PostStatus.pending_approval } ∧
    should_regenerate (applyUpdate {} (process_feedback {})) = "end" :=
  process_feedback_none_ends_pending {} rfl

/-! ### C5: EDIT feedback -/

/-- C5: with a draft present and EDIT feedback carrying a non-empty
`edited_text`, the feedback node's merged result replaces the draft by one whose
text is the edited text and whose hashtags are exactly the pre-edit draft's
hashtags (same list), sets status `APPROVED`, and changes no other field of the
state. -/
theorem edit_preserves_hashtags (s : AgentState) (pc : PostContent) (et : String)
    (msg : Option String) (hpc : s.post_content = some pc)
    (hfb : s.human_feedback = some
      { action := FeedbackAction.edit, edited_text := some et, feedback_message := msg })
    (hne : et ≠ "") :
    process_feedback s =
      { post_content := some (some
          { text := et, platform := s.platform, hashtags := pc.hashtags })
        status := some PostStatus.approved } ∧
    applyUpdate s (process_feedback s) =
      { s with
        post_content := some { text := et, platform := s.platform, hashtags := pc.hashtags }
        status := PostStatus.approved } := by
  have h1 : process_feedback s =
      { post_content := some (some
          { text := et, platform := s.platform, hashtags := pc.hashtags })
        status := some PostStatus.approved } := by
    simp [process_feedback, hfb, hpc, truthyStr, hne]
  refine ⟨h1, ?_⟩
  rw [h1]; rfl

/-- Witness for C5 on a concrete pending state. -/
theorem edit_preserves_hashtags_witness :
    process_feedback
      { post_content := some { text := "old", platform := Platform.twitter, hashtags := ["ai", "ml"] }
        status := PostStatus.pending_approval
        human_feedback := some { action := FeedbackAction.edit, edited_text := some "new copy" } } =
      { post_content := some (some
          { text := "new copy", platform := Platform.twitter, hashtags := ["ai", "ml"] })
        status := some PostStatus.approved } :=
  (edit_preserves_hashtags _ _ _ none rfl rfl (by decide)).1

/-! ### C6: unrecognized resume values fail open -/

/-- C6: a resume string not recognized by the normalizer (after its
`.strip().lower()` normalization it is neither `"approve"` nor `"reject"` nor a
string starting with `"edit:"`) parses to APPROVE with the non-empty diagnostic
message `"Unclear response: <input>"`, instead of failing. -/
theorem unrecognized_defaults_to_approve (s : String)
    (h1 : pyLower (pyStrip s) ≠ "approve") (h2 : pyLower (pyStrip s) ≠ "reject")
    (h3 : pyStartsWith (pyLower (pyStrip s)) "edit:" = false) :
    parse_human_response (HumanResponse.str s) =
      { action := FeedbackAction.approve, edited_text := none,
        feedback_message := some ("Unclear response: " ++ s) } ∧
    "Unclear response: " ++ s ≠ "" := by
  constructor
  · simp [parse_human_response, h1, h2, h3]
  · intro hc
    have hlen := congrArg String.length hc
    rw [String.length_append] at hlen
    have he : ("Unclear response: " : String).length = 18 := rfl
    have hz : ("" : String).length = 0 := rfl
    omega

/-- Witness for C6 on the unrecognized input `"publish it"`. -/
theorem unrecognized_defaults_to_approve_witness :
    parse_human_response (HumanResponse.str "publish it") =
      { action := FeedbackAction.approve, edited_text := none,
        feedback_message := some ("Unclear response: " ++ "publish it") } ∧
    "Unclear response: " ++ "publish it" ≠ "" :=
  unrecognized_defaults_to_approve "publish it" (by decide) (by decide) (by decide)

/-! ### C3: resume-value normalization -/

/-- C3 (counterexample): the claim says `"edit:"`-strings normalize to EDIT with
`edited_text` equal to the replacement text that follows `"edit:"` (trimmed), but
`_parse_human_response` lowercases the whole input before slicing, so
`"edit: New Copy"` yields `edited_text = "new copy"`, not `"New Copy"`. -/
theorem parse_edit_lowercase_counterexample :
    parse_human_response (HumanResponse.str "edit: New Copy") =
      { action := FeedbackAction.edit, edited_text := some "new copy" } ∧
    parse_human_response (HumanResponse.str "edit: New Copy") ≠
      { action := FeedbackAction.edit, edited_text := some "New Copy" } := by
  constructor
  · rfl
  · decide

/-- C3 (amended): the normalizer maps the literal string `"approve"` to action
APPROVE, the literal string `"reject"` to action REJECT, any string whose
stripped-and-lowercased form begins with `"edit:"` to action EDIT with
`edited_text` equal to the stripped remainder of that *lowercased* form (the
whole input is lowercased before the replacement text is extracted), and the
structured feedback dict `{action, edited_text?, message?}` to the `Feedback`
record with exactly those fields. -/
theorem parse_human_response_spec :
    parse_human_response (HumanResponse.str "approve") = { action := FeedbackAction.approve } ∧
    parse_human_response (HumanResponse.str "reject") = { action := FeedbackAction.reject } ∧
    (∀ s : String, pyStartsWith (pyLower (pyStrip s)) "edit:" = true →
      parse_human_response (HumanResponse.str s) =
        { action := FeedbackAction.edit,
          edited_text := some (pyStrip (pyDrop (pyLower (pyStrip s)) 5)) }) ∧
    (∀ (a : FeedbackAction) (e m : Option String),
      parse_human_response (HumanResponse.dict a e m) =
        { action := a, edited_text := e, feedback_message := m }) := by
  refine ⟨rfl, rfl, ?_, fun a e m => rfl⟩
  intro s h
  have h1 : pyLower (pyStrip s) ≠ "approve" := by
    intro hc; rw [hc] at h; exact absurd h (by decide)
  have h2 : pyLower (pyStrip s) ≠ "reject" := by
    intro hc; rw [hc] at h; exact absurd h (by decide)
  simp [parse_human_response, h1, h2, h]

/-- Witness for C3's amended edit clause on the input `"edit: hi"`. -/
theorem parse_human_response_spec_witness :
    pyStartsWith (pyLower (pyStrip "edit: hi")) "edit:" = true ∧
    parse_human_response (HumanResponse.str "edit: hi") =
      { action := FeedbackAction.edit, edited_text := some "hi" } :=
  ⟨by decide, parse_human_response_spec.2.2.1 "edit: hi" (by decide)⟩

/-! ### C7: the publish node -/

/-- C7: on a state with a present draft, `publish_post` consults the publish
collaborator exactly once, at the draft's rendered text: on success it returns
the update `{status: PUBLISHED, published_url: <result url>}`, and on any
collaborator error the update `{status: FAILED, error_message: <message>}`; the
merged status is always PUBLISHED or FAILED and never stays APPROVED. -/
theorem publish_post_spec (s : AgentState) (pc : PostContent)
    (conn : String → Except String (Option String)) (hpc : s.post_content = some pc) :
    publish_post s conn =
      (match conn pc.formatted_text with
       | Except.ok url =>
         { status := some PostStatus.published, published_url := some url }
       | Except.error e =>
         { status := some PostStatus.failed, error_message := some (some e) }) ∧
    ((applyUpdate s (publish_post s conn)).status = PostStatus.published ∨
      (applyUpdate s (publish_post s conn)).status = PostStatus.failed) ∧
    (applyUpdate s (publish_post s conn)).status ≠ PostStatus.approved ∧
    (∀ url, conn pc.formatted_text = Except.ok url →
      (applyUpdate s (publish_post s conn)).status = PostStatus.published ∧
      (applyUpdate s (publish_post s conn)).published_url = url) ∧
    (∀ e, conn pc.formatted_text = Except.error e →
      (applyUpdate s (publish_post s conn)).status = PostStatus.failed ∧
      (applyUpdate s (publish_post s conn)).error_message = some e) := by
  rcases hc : conn pc.formatted_text with e | url
  · have h1 : publish_post s conn =
        { status := some PostStatus.failed, error_message := some (some e) } := by
      simp [publish_post, hpc, hc]
    rw [h1]
    refine ⟨rfl, Or.inr rfl, ?_, ?_, ?_⟩
    · exact (by decide : PostStatus.failed ≠ PostStatus.approved)
    · intro url hurl; cases hurl
    · intro e' he
      injection he with he'
      subst he'
      exact ⟨rfl, rfl⟩
  · have h1 : publish_post s conn =
        { status := some PostStatus.published, published_url := some url } := by
      simp [publish_post, hpc, hc]
    rw [h1]
    refine ⟨rfl, Or.inl rfl, ?_, ?_, ?_⟩
    · exact (by decide : PostStatus.published ≠ PostStatus.approved)
    · intro url' hurl
      injection hurl with hurl'
      subst hurl'
      exact ⟨rfl, rfl⟩
    · intro e he; cases he

/-- Witness for C7 with a successful collaborator call. -/
theorem publish_post_spec_witness :
    (applyUpdate
      { post_content := some { text := "hi", platform := Platform.twitter, hashtags := [] }
        status := PostStatus.approved }
      (publish_post
        { post_content := some { text := "hi", platform := Platform.twitter, hashtags := [] }
          status := PostStatus.approved }
        (fun _ => Except.ok (some "https://x.com/1")))).status = PostStatus.published :=
  ((publish_post_spec _ _ _ rfl).2.2.2.1 (some "https://x.com/1") rfl).1

/-! ### C2: attempt-count monotonicity -/

theorem request_approval_attempts_none (s : AgentState) (r : HumanResponse) :
    (request_approval s r).generation_attempts = none := by
  unfold request_approval
  cases s.post_content <;> rfl

theorem process_feedback_attempts_none (s : AgentState) :
    (process_feedback s).generation_attempts = none := by
  unfold process_feedback
  rcases s.human_feedback with _ | fb
  · rfl
  · rcases fb with ⟨act, e, m⟩
    cases act
    · rfl
    · dsimp only
      split <;> rfl
    · dsimp only
      split
      · split <;> rfl
      · rfl

theorem publish_post_attempts_none (s : AgentState)
    (conn : String → Except String (Option String)) :
    (publish_post s conn).generation_attempts = none := by
  unfold publish_post
  rcases s.post_content with _ | pc
  · rfl
  · dsimp only
    cases conn pc.formatted_text <;> rfl

theorem applyUpdate_attempts_of_none (s : AgentState) (u : StateUpdate)
    (h : u.generation_attempts = none) :
    (applyUpdate s u).generation_attempts = s.generation_attempts := by
  simp [applyUpdate, h]

theorem nodeStep_attempts_mono (s s' : AgentState) (h : NodeStep s s') :
    s.generation_attempts ≤ s'.generation_attempts := by
  cases h with
  | generate pt hr =>
    rw [generate_post_applied]
    exact Nat.le_succ _
  | approval r =>
    rw [applyUpdate_attempts_of_none _ _ (request_approval_attempts_none s r)]
  | feedback =>
    rw [applyUpdate_attempts_of_none _ _ (process_feedback_attempts_none s)]
  | publish conn =>
    rw [applyUpdate_attempts_of_none _ _ (publish_post_attempts_none s conn)]

/-- C2: along any sequence of node executions `generation_attempts` never
decreases; the draft node's update sets it to exactly the old value plus one, and
the update returned by each of the other three nodes leaves the
`generation_attempts` key absent (field unchanged by the merge). -/
theorem attempts_monotone :
    (∀ s s' : AgentState, Relation.ReflTransGen NodeStep s s' →
      s.generation_attempts ≤ s'.generation_attempts) ∧
    (∀ (s : AgentState) (pt hr : String),
      (generate_post s pt hr).generation_attempts = some (s.generation_attempts + 1) ∧
      (applyUpdate s (generate_post s pt hr)).generation_attempts =
        s.generation_attempts + 1) ∧
    (∀ (s : AgentState) (r : HumanResponse),
      (request_approval s r).generation_attempts = none) ∧
    (∀ s : AgentState, (process_feedback s).generation_attempts = none) ∧
    (∀ (s : AgentState) (conn : String → Except String (Option String)),
      (publish_post s conn).generation_attempts = none) := by
  refine ⟨?_, fun s pt hr => ⟨rfl, rfl⟩, request_approval_attempts_none,
    process_feedback_attempts_none, publish_post_attempts_none⟩
  intro s s' h
  induction h with
  | refl => exact Nat.le_refl _
  | tail _ hstep ih => exact Nat.le_trans ih (nodeStep_attempts_mono _ _ hstep)

/-- Witness for C2: a two-step execution (draft node, then feedback node) from
the default initial state. -/
theorem attempts_monotone_witness :
    ({} : AgentState).generation_attempts ≤
      (applyUpdate (applyUpdate {} (generate_post {} "a" "b"))
        (process_feedback (applyUpdate {} (generate_post {} "a" "b")))).generation_attempts :=
  attempts_monotone.1 _ _
    (Relation.ReflTransGen.tail
      (Relation.ReflTransGen.single (NodeStep.generate {} "a" "b"))
      (NodeStep.feedback _))

/-! ### C9: per-platform hashtag bound -/

theorem applyUpdate_post_content_of_none (s : AgentState) (u : StateUpdate)
    (h : u.post_content = none) :
    (applyUpdate s u).post_content = s.post_content := by
  simp [applyUpdate, h]

theorem request_approval_post_content_none (s : AgentState) (r : HumanResponse) :
    (request_approval s r).post_content = none := by
  unfold request_approval
  cases s.post_content <;> rfl

theorem publish_post_post_content_none (s : AgentState)
    (conn : String → Except String (Option String)) :
    (publish_post s conn).post_content = none := by
  unfold publish_post
  rcases s.post_content with _ | pc
  · rfl
  · dsimp only
    cases conn pc.formatted_text <;> rfl

theorem process_feedback_post_content (s : AgentState) :
    (process_feedback s).post_content = none ∨
    ∃ pc et, s.post_content = some pc ∧
      (process_feedback s).post_content =
        some (some { text := et, platform := s.platform, hashtags := pc.hashtags }) := by
  unfold process_feedback
  rcases hfb : s.human_feedback with _ | fb
  · exact Or.inl rfl
  · rcases fb with ⟨act, e, m⟩
    cases act
    · exact Or.inl rfl
    · dsimp only
      split <;> exact Or.inl rfl
    · dsimp only
      rcases hpc : s.post_content with _ | pc <;> rcases he : e with _ | et
      · split <;> exact Or.inl rfl
      · split <;> exact Or.inl rfl
      · split <;> exact Or.inl rfl
      · split
        · exact Or.inr ⟨pc, et, rfl, rfl⟩
        · exact Or.inl rfl

theorem draftInv_of_unchanged (s : AgentState) (u : StateUpdate) (hinv : DraftInv s)
    (h : u.post_content = none) : DraftInv (applyUpdate s u) := by
  intro pc hpc
  rw [applyUpdate_post_content_of_none s u h] at hpc
  exact hinv pc hpc

theorem nodeStep_preserves_draftInv (s s' : AgentState) (hinv : DraftInv s)
    (h : NodeStep s s') : DraftInv s' := by
  cases h with
  | generate pt hr =>
    rw [generate_post_applied]
    intro pc hpc
    have hpc' : some
        ({ text := pyStrip pt, platform := s.platform,
           hashtags := (extract_hashtags hr).take
             (if s.platform = Platform.twitter then 3 else 5) } : PostContent) = some pc := hpc
    injection hpc' with hpc''
    subst hpc''
    refine ⟨rfl, ?_⟩
    simp only [numHashtags, List.length_take]
    exact min_le_left _ _
  | approval r =>
    exact draftInv_of_unchanged s _ hinv (request_approval_post_content_none s r)
  | feedback =>
    rcases process_feedback_post_content s with hnone | ⟨pc0, et, hpc0, hsome⟩
    · exact draftInv_of_unchanged s _ hinv hnone
    · intro pc hpc
      have hpc' : (process_feedback s).post_content.getD s.post_content = some pc := hpc
      rw [hsome] at hpc'
      simp only [Option.getD_some] at hpc'
      injection hpc' with hpc''
      subst hpc''
      obtain ⟨hplat, hlen⟩ := hinv pc0 hpc0
      refine ⟨rfl, ?_⟩
      show pc0.hashtags.length ≤ numHashtags s.platform
      rw [← hplat]
      exact hlen
  | publish conn =>
    exact draftInv_of_unchanged s _ hinv (publish_post_post_content_none s conn)

/-- C9: every draft the draft node produces obeys the per-platform hashtag bound
(at most 3 hashtags for Twitter, at most 5 for LinkedIn, via the `[:num_hashtags]`
truncation), the fresh initial state trivially satisfies the draft invariant, and
every node execution — including applying EDIT feedback, which copies the
pre-edit draft's hashtags — preserves it. -/
theorem hashtag_bound :
    (∀ (s : AgentState) (pt hr : String) (pc : PostContent),
      (generate_post s pt hr).post_content = some (some pc) →
      pc.platform = s.platform ∧ pc.hashtags.length ≤ numHashtags s.platform) ∧
    (∀ s s' : AgentState, DraftInv s → NodeStep s s' → DraftInv s') ∧
    (∀ s s' : AgentState, DraftInv s → Relation.ReflTransGen NodeStep s s' → DraftInv s') ∧
    (∀ (topic : String) (platform : Platform) (tone addCtx tid : String),
      DraftInv (initial_state topic platform tone addCtx tid)) := by
  refine ⟨?_, nodeStep_preserves_draftInv, ?_, ?_⟩
  · intro s pt hr pc hpc
    have hpc' : some (some
        ({ text := pyStrip pt, platform := s.platform,
           hashtags := (extract_hashtags hr).take
             (if s.platform = Platform.twitter then 3 else 5) } : PostContent)) =
        some (some pc) := hpc
    injection hpc' with h1
    injection h1 with h2
    subst h2
    refine ⟨rfl, ?_⟩
    simp only [numHashtags, List.length_take]
    exact min_le_left _ _
  · intro s s' hinv h
    induction h with
    | refl => exact hinv
    | tail _ hstep ih => exact nodeStep_preserves_draftInv _ _ ih hstep
  · intro topic platform tone addCtx tid _pc hpc
    exact Option.noConfusion hpc

/-- Witness for C9: the invariant holds after one draft-node execution from the
default initial state. -/
theorem hashtag_bound_witness :
    DraftInv (applyUpdate {} (generate_post {} "a" "b")) :=
  hashtag_bound.2.1 {} _ (fun _pc hpc => Option.noConfusion hpc)
    (NodeStep.generate {} "a" "b")

/-! ### C1: bounded regeneration under repeated REJECT -/

theorem process_feedback_reject_ge (s : AgentState) (fb : HumanFeedback)
    (h : s.human_feedback = some fb) (ha : fb.action = FeedbackAction.reject)
    (hc : s.max_attempts ≤ s.generation_attempts) :
    process_feedback s =
      { status := some PostStatus.failed
        error_message := some (some (maxAttemptsMsg s.max_attempts)) } := by
  rw [process_feedback_reject s fb h ha, if_pos hc]

theorem process_feedback_reject_lt (s : AgentState) (fb : HumanFeedback)
    (h : s.human_feedback = some fb) (ha : fb.action = FeedbackAction.reject)
    (hc : s.generation_attempts < s.max_attempts) :
    process_feedback s =
      { status := some PostStatus.draft, human_feedback := some none } := by
  rw [process_feedback_reject s fb h ha, if_neg (by omega)]

theorem approval_then_feedback_reject (s1 : AgentState) (r : HumanResponse)
    (pc : PostContent) (hpc : s1.post_content = some pc)
    (hr : (parse_human_response r).action = FeedbackAction.reject) :
    (s1.max_attempts ≤ s1.generation_attempts →
      applyUpdate (applyUpdate s1 (request_approval s1 r))
        (process_feedback (applyUpdate s1 (request_approval s1 r))) =
        { s1 with
          human_feedback := some (parse_human_response r)
          status := PostStatus.failed
          error_message := some (maxAttemptsMsg s1.max_attempts) }) ∧
    (s1.generation_attempts < s1.max_attempts →
      applyUpdate (applyUpdate s1 (request_approval s1 r))
        (process_feedback (applyUpdate s1 (request_approval s1 r))) =
        { s1 with human_feedback := none, status := PostStatus.draft }) := by
  have h1 : request_approval s1 r =
      { human_feedback := some (some (parse_human_response r)) } :=
    request_approval_some s1 r pc hpc
  constructor
  · intro hc
    rw [h1]
    rw [process_feedback_reject_ge
      (applyUpdate s1 { human_feedback := some (some (parse_human_response r)) })
      (parse_human_response r) rfl hr hc]
    rfl
  · intro hc
    rw [h1]
    rw [process_feedback_reject_lt
      (applyUpdate s1 { human_feedback := some (some (parse_human_response r)) })
      (parse_human_response r) rfl hr hc]
    rfl

theorem rejectRound_eq_ge (llm : Nat → String × String) (resp : Nat → HumanResponse)
    (hresp : ∀ k, (parse_human_response (resp k)).action = FeedbackAction.reject)
    (s : AgentState) (hc : s.max_attempts ≤ s.generation_attempts + 1) :
    rejectRound llm resp s =
      { s with
        post_content := some
          { text := pyStrip (llm s.generation_attempts).1, platform := s.platform,
            hashtags := (extract_hashtags (llm s.generation_attempts).2).take
              (if s.platform = Platform.twitter then 3 else 5) }
        generation_attempts := s.generation_attempts + 1
        human_feedback := some (parse_human_response (resp s.generation_attempts))
        status := PostStatus.failed
        error_message := some (maxAttemptsMsg s.max_attempts) } := by
  simp only [rejectRound]
  rw [generate_post_applied]
  exact (approval_then_feedback_reject _ _ _ rfl (hresp s.generation_attempts)).1 hc

theorem rejectRound_eq_lt (llm : Nat → String × String) (resp : Nat → HumanResponse)
    (hresp : ∀ k, (parse_human_response (resp k)).action = FeedbackAction.reject)
    (s : AgentState) (hc : s.generation_attempts + 1 < s.max_attempts) :
    rejectRound llm resp s =
      { s with
        post_content := some
          { text := pyStrip (llm s.generation_attempts).1, platform := s.platform,
            hashtags := (extract_hashtags (llm s.generation_attempts).2).take
              (if s.platform = Platform.twitter then 3 else 5) }
        generation_attempts := s.generation_attempts + 1
        human_feedback := none
        status := PostStatus.draft } := by
  simp only [rejectRound]
  rw [generate_post_applied]
  exact (approval_then_feedback_reject _ _ _ rfl (hresp s.generation_attempts)).2 hc

theorem runReject_spec (llm : Nat → String × String) (resp : Nat → HumanResponse)
    (hresp : ∀ k, (parse_human_response (resp k)).action = FeedbackAction.reject) :
    ∀ (fuel : Nat) (s : AgentState),
      s.generation_attempts < s.max_attempts →
      s.max_attempts - s.generation_attempts ≤ fuel →
      (runReject llm resp fuel s).2 = s.max_attempts - s.generation_attempts ∧
      (runReject llm resp fuel s).1.status = PostStatus.failed ∧
      (runReject llm resp fuel s).1.error_message =
        some (maxAttemptsMsg s.max_attempts) := by
  intro fuel
  induction fuel with
  | zero => intro s h1 h2; omega
  | succ n ih =>
    intro s h1 h2
    by_cases hc : s.max_attempts ≤ s.generation_attempts + 1
    · have hround := rejectRound_eq_ge llm resp hresp s hc
      have hst : (rejectRound llm resp s).status = PostStatus.failed := by rw [hround]
      have herr : (rejectRound llm resp s).error_message =
          some (maxAttemptsMsg s.max_attempts) := by rw [hround]
      have hend : ¬ should_regenerate (rejectRound llm resp s) = "generate" := by
        simp [should_regenerate, hst]
      simp only [runReject]
      rw [if_neg hend]
      refine ⟨?_, hst, herr⟩
      show (1 : Nat) = s.max_attempts - s.generation_attempts
      omega
    · push_neg at hc
      have hround := rejectRound_eq_lt llm resp hresp s hc
      have hst : (rejectRound llm resp s).status = PostStatus.draft := by rw [hround]
      have hgen : should_regenerate (rejectRound llm resp s) = "generate" := by
        simp [should_regenerate, hst]
      have ha : (rejectRound llm resp s).generation_attempts =
          s.generation_attempts + 1 := by rw [hround]
      have hm : (rejectRound llm resp s).max_attempts = s.max_attempts := by rw [hround]
      obtain ⟨c1, c2, c3⟩ := ih (rejectRound llm resp s) (by omega) (by omega)
      rw [ha, hm] at c1
      simp only [runReject]
      rw [if_pos hgen]
      refine ⟨?_, c2, by rw [c3, hm]⟩
      show (runReject llm resp n (rejectRound llm resp s)).2 + 1 =
        s.max_attempts - s.generation_attempts
      omega

/-- C1: starting a fresh thread whose regeneration budget is `m ≥ 1` and
rejecting at every approval round (every round's resume value parses to action
REJECT) drives the workflow to status FAILED after exactly `m` executions of the
draft node — never more, whatever fuel beyond `m` the loop is given — with the
final error message naming the `max_attempts` budget; locally, `process_feedback`
on REJECT feedback returns `{status: DRAFT, feedback cleared}` while
`generation_attempts < max_attempts` and `{status: FAILED, error naming
max_attempts}` once `generation_attempts ≥ max_attempts`. -/
theorem reject_exhausts_budget
    (llm : Nat → String × String) (resp : Nat → HumanResponse)
    (topic : String) (platform : Platform) (tone addCtx tid : String) (m fuel : Nat)
    (hresp : ∀ k, (parse_human_response (resp k)).action = FeedbackAction.reject)
    (hm : 1 ≤ m) (hfuel : m ≤ fuel) :
    ((runReject llm resp fuel
        { initial_state topic platform tone addCtx tid with max_attempts := m }).2 = m ∧
      (runReject llm resp fuel
        { initial_state topic platform tone addCtx tid with
          max_attempts := m }).1.status = PostStatus.failed ∧
      (runReject llm resp fuel
        { initial_state topic platform tone addCtx tid with
          max_attempts := m }).1.error_message = some (maxAttemptsMsg m)) ∧
    (∀ (s : AgentState) (fb : HumanFeedback), s.human_feedback = some fb →
      fb.action = FeedbackAction.reject →
      (s.generation_attempts < s.max_attempts →
        process_feedback s =
          { status := some PostStatus.draft, human_feedback := some none }) ∧
      (s.max_attempts ≤ s.generation_attempts →
        process_feedback s =
          { status := some PostStatus.failed,
            error_message := some (some (maxAttemptsMsg s.max_attempts)) })) := by
  constructor
  · have h := runReject_spec llm resp hresp fuel
      { initial_state topic platform tone addCtx tid with max_attempts := m }
      (show (0 : Nat) < m from hm) (show m - 0 ≤ fuel from by omega)
    exact ⟨h.1, h.2.1, h.2.2⟩
  · intro s fb hfb ha
    exact ⟨fun hlt => process_feedback_reject_lt s fb hfb ha hlt,
      fun hge => process_feedback_reject_ge s fb hfb ha hge⟩

/-- Witness for C1: budget 2, fuel 2, always the literal string `"reject"`. -/
theorem reject_exhausts_budget_witness :
    (runReject (fun _ => ("a", "b")) (fun _ => HumanResponse.str "reject") 2
      { initial_state "t" Platform.twitter "professional" "" "id" with
        max_attempts := 2 }).2 = 2 ∧
    (runReject (fun _ => ("a", "b")) (fun _ => HumanResponse.str "reject") 2
      { initial_state "t" Platform.twitter "professional" "" "id" with
        max_attempts := 2 }).1.status = PostStatus.failed :=
  have h := reject_exhausts_budget (fun _ => ("a", "b"))
    (fun _ => HumanResponse.str "reject") "t" Platform.twitter "professional" "" "id"
    2 2 (fun _ => rfl) (by omega) (by omega)
  ⟨h.1.1, h.1.2.1⟩

/-! ### C4: invalid resume -/

theorem lookupThread_mem :
    ∀ (pending : List (String × AgentState)) (tid : String) (st : AgentState),
      lookupThread pending tid = some st → (tid, st) ∈ pending := by
  intro pending
  induction pending with
  | nil => intro tid st h; simp [lookupThread] at h
  | cons p rest ih =>
    intro tid st h
    unfold lookupThread at h
    split at h
    · next heq =>
      injection h with h'
      subst h'
      rw [← heq]
      exact List.mem_cons_self p rest
    · exact List.mem_cons_of_mem p (ih tid st h)

theorem start_thread_status (topic : String) (platform : Platform)
    (tone addCtx tid : String) (llm : String × String) :
    (start_thread topic platform tone addCtx tid llm).status =
      PostStatus.pending_approval := rfl

/-- The registry invariant behind terminal immutability: `pending_threads` never
holds a thread whose stored result is terminal (the approve endpoint pops
terminal results and the generate endpoint stores a freshly suspended,
PENDING_APPROVAL result). -/
def PendingInv (pending : List (String × AgentState)) : Prop :=
  ∀ tid st, (tid, st) ∈ pending →
    st.status ≠ PostStatus.published ∧ st.status ≠ PostStatus.failed

theorem reachable_pending_inv (pending : List (String × AgentState))
    (h : ReachablePending pending) : PendingInv pending := by
  induction h with
  | nil => intro tid st hmem; simp at hmem
  | start pending topic platform tone addCtx tid llm _ ih =>
    intro t st hmem
    rcases List.mem_cons.mp hmem with heq | hmem'
    · have hst : st = start_thread topic platform tone addCtx tid llm :=
        congrArg Prod.snd heq
      rw [hst, start_thread_status]
      exact ⟨by decide, by decide⟩
    · exact ih t st hmem'
  | approve pending tid req llm conn _ ih =>
    intro t st hmem
    simp only [approve_post] at hmem
    rcases hl : lookupThread pending tid with _ | stored
    · rw [hl] at hmem
      exact ih t st hmem
    · rw [hl] at hmem
      simp only at hmem
      split at hmem
      · simp only [removeThread] at hmem
        exact ih t st (List.mem_of_mem_filter hmem)
      · next hterm =>
        simp only [setThread] at hmem
        rcases List.mem_map.mp hmem with ⟨p, hp, hfp⟩
        push_neg at hterm
        by_cases hpe : p.1 = tid
        · rw [if_pos hpe] at hfp
          have hst : st = resume_thread stored
              (HumanResponse.dict req.action req.edited_text req.feedback_message)
              llm conn := (congrArg Prod.snd hfp).symm
          rw [hst]
          exact hterm
        · rw [if_neg hpe] at hfp
          rw [hfp] at hp
          exact ih t st hp

/-- C4: resuming a thread with no entry in the registry (an unknown thread id)
raises the invalid-resume error ("Thread not found", HTTP 404) and returns the
registry untouched — no state is created for the unknown thread; and on every
API-reachable registry a stored thread's status is never terminal (PUBLISHED or
FAILED results are popped the moment they arise), so a thread that has reached a
terminal status has no registry entry left and any later resume of it takes
exactly that error path, leaving all stored state unchanged. -/
theorem invalid_resume_rejected
    (pending : List (String × AgentState)) (tid : String) (req : ApprovalRequest)
    (llm : String × String) (conn : String → Except String (Option String)) :
    (lookupThread pending tid = none →
      approve_post pending tid req llm conn = (pending, Except.error "Thread not found")) ∧
    (ReachablePending pending →
      ∀ st, lookupThread pending tid = some st →
        st.status ≠ PostStatus.published ∧ st.status ≠ PostStatus.failed) := by
  constructor
  · intro h
    simp [approve_post, h]
  · intro hr st hl
    exact reachable_pending_inv pending hr tid st (lookupThread_mem pending tid st hl)

/-- Witness for C4: resuming an unknown thread on the empty (reachable) registry. -/
theorem invalid_resume_rejected_witness :
    approve_post [] "missing" { action := FeedbackAction.approve } ("a", "b")
      (fun _ => Except.ok none) = ([], Except.error "Thread not found") :=
  (invalid_resume_rejected [] "missing" { action := FeedbackAction.approve } ("a", "b")
    (fun _ => Except.ok none)).1 rfl
